import Mathlib

/- Shallow embedding of the qdsync_cccf frame detector/synchronizer from
liquid-dsp (src/framing/src/qdsync_cccf.c).

The qdetector (correlation detector), nco (mixer) and firpfb (polyphase
matched filter bank) sub-objects are external collaborators of this file
of the repository; they are modelled as abstract state types S (samples),
M (mixer), F (filter bank), D (detector) together with a record Collab of
the operations qdsync_cccf.c invokes on them.  All bookkeeping performed
by qdsync_cccf.c itself (counters, state tag, output buffer, callback
protocol) is translated directly from the C source.

Machine-integer conventions: C unsigned int fields become Nat, the signed
int field mf_counter becomes Int, and the C usual-arithmetic-conversion of
a signed int to unsigned int (which happens in the comparison
mf_counter >= k-1 inside qdsync_cccf_step) is modelled by toUInt32.
Samples and the float estimates (tau, gamma, dphi, phi) flow through the
abstract collaborator operations; the one float computation performed by
qdsync_cccf.c itself, the C cast (int)(tau*npfb), is modelled over ℚ by
ratTrunc (truncation toward zero, the semantics of the C float-to-int
conversion). -/

/-- Return code LIQUID_OK of liquid-dsp (value 0). -/
def LIQUID_OK : Int := 0

/-- Return code LIQUID_EINT (internal error); exact value immaterial, nonzero. -/
def LIQUID_EINT : Int := 1

/-- Return code LIQUID_EICONFIG (configuration error); nonzero, distinct. -/
def LIQUID_EICONFIG : Int := 3

/-- Return code LIQUID_EIMEM (memory allocation error); nonzero, distinct. -/
def LIQUID_EIMEM : Int := 9

/-- Conversion of a C signed int value to unsigned int (two-complement wrap
modulo 2^32), as performed by the usual arithmetic conversions. -/
def toUInt32 (x : Int) : Nat := (x % (2 ^ 32 : Int)).toNat

/-- Truncation of a rational toward zero: the semantics of the C cast
(int)(...) applied to a floating-point value, modelled over ℚ. -/
def ratTrunc (x : ℚ) : Int := Int.tdiv x.num x.den

/-- Operations qdsync_cccf.c invokes on its external collaborators
(qdetector, nco, firpfb), kept abstract: S samples, M mixer state,
F filter-bank state, D detector state.  junk models the content of
uninitialized (malloc) memory cells. -/
structure Collab (S M F D : Type) where
  det_create : List S → Int → Nat → Nat → ℚ → D
  det_execute : D → S → D × Option (List S)
  det_reset : D → D
  det_copy : D → D
  det_get_tau : D → ℚ
  det_get_gamma : D → ℚ
  det_get_dphi : D → ℚ
  det_get_phi : D → ℚ
  det_set_threshold : D → ℚ → D
  det_set_range : D → ℚ → D
  nco_create : M
  nco_mix_down : M → S → S
  nco_step : M → M
  nco_set_frequency : M → ℚ → M
  nco_set_phase : M → ℚ → M
  nco_copy : M → M
  firpfb_create : Int → Nat → Nat → Nat → ℚ → F
  firpfb_push : F → S → F
  firpfb_execute : F → Nat → S
  firpfb_set_scale : F → ℚ → F
  firpfb_reset : F → F
  firpfb_copy : F → F
  junk : S

/-- The struct qdsync_cccf_s object.  buf_out models the malloc allocation
backing the output buffer: its length is the allocated capacity, which
coincides with buf_out_len except transiently inside set_buf_len (and
after a failed realloc).  The user callback (with its context closed
over) is an Option: none models a NULL callback pointer. -/
structure qdsync_cccf_s (S M F D : Type) where
  seq_len : Nat
  ftype : Int
  k : Nat
  m : Nat
  beta : ℚ
  callback : Option (List S → Int)
  detector : D
  state : Nat
  symbol_counter : Nat
  mixer : M
  mf : F
  npfb : Nat
  mf_counter : Int
  pfb_index : Nat
  buf_out_len : Nat
  buf_out : List S
  buf_out_counter : Nat

section Model

variable {S M F D : Type}

/-- Model of qdsync_cccf_reset (qdsync_cccf.c lines 176-184): reset the
detector, force state to DETECT (0), zero symbol_counter and the buffer
cursor, reset the matched filter bank.  Returns (rc, new state). -/
def qdsync_cccf_reset (E : Collab S M F D) (q : qdsync_cccf_s S M F D) :
    Int × qdsync_cccf_s S M F D :=
  (LIQUID_OK,
    { q with detector := E.det_reset q.detector
             state := 0
             symbol_counter := 0
             buf_out_counter := 0
             mf := E.firpfb_reset q.mf })

/-- Model of qdsync_cccf_buf_append (lines 404-429).  Returns
(rc, new state, delivered callback windows).  symbol_counter is
incremented first; while it stays at most 2*m the call returns without
touching the buffer.  Otherwise the sample is written at the cursor; if
the buffer fills, the cursor resets to 0 and the callback (when
non-NULL) receives the whole buffer; a nonzero callback return triggers
qdsync_cccf_reset. -/
def qdsync_cccf_buf_append (E : Collab S M F D) (q : qdsync_cccf_s S M F D)
    (x : S) : Int × qdsync_cccf_s S M F D × List (List S) :=
  let q1 := { q with symbol_counter := q.symbol_counter + 1 }
  if q1.symbol_counter ≤ 2 * q1.m then (LIQUID_OK, q1, [])
  else
    let q2 := { q1 with buf_out := q1.buf_out.set q1.buf_out_counter x
                        buf_out_counter := q1.buf_out_counter + 1 }
    if q2.buf_out_counter = q2.buf_out_len then
      let q3 := { q2 with buf_out_counter := 0 }
      match q3.callback with
      | some cb =>
        let w := q3.buf_out.take q3.buf_out_len
        if cb w ≠ 0 then
          ((qdsync_cccf_reset E q3).1, (qdsync_cccf_reset E q3).2, [w])
        else (LIQUID_OK, q3, [w])
      | none => (LIQUID_OK, q3, [])
    else (LIQUID_OK, q2, [])

/-- Model of realloc to len cells: on success the surviving prefix of the
old allocation is kept and any fresh cells are uninitialized (junk); on
failure none is returned and the old allocation is untouched. -/
def reallocModel (ok : Bool) (buf : List S) (len : Nat) (junk : S) :
    Option (List S) :=
  if ok then some (buf.take len ++ List.replicate (len - buf.length) junk)
  else none

/-- The while loop of the shrink path of qdsync_cccf_set_buf_len
(lines 240-247): while buf_out_counter ≥ L, deliver the window of L
samples at the read offset to the callback when it is non-NULL (its
return code is ignored by the C code), advance the offset by L and
decrease the counter by L.  Arguments: index = read offset, counter =
buf_out_counter.  Returns (final index, final counter, windows passed to
the callback).  The 0 < L conjunct only serves termination; the caller
rejects L = 0 before reaching this loop. -/
def drainLoop (hasCb : Bool) (buf : List S) (L index counter : Nat) :
    Nat × Nat × List (List S) :=
  if _h : 0 < L ∧ L ≤ counter then
    let w := (buf.drop index).take L
    let r := drainLoop hasCb buf L (index + L) (counter - L)
    (r.1, r.2.1, if hasCb then w :: r.2.2 else r.2.2)
  else (index, counter, [])
termination_by counter
decreasing_by omega

/-- Model of qdsync_cccf_set_buf_len (lines 222-260).  allocOk is the
outcome of the realloc call (the collaborating allocator).  Returns
(rc, new state, windows delivered to the callback).  Note the C code
assigns buf_out_len before calling realloc on both paths, so on a failed
realloc the recorded capacity is already the new one. -/
def qdsync_cccf_set_buf_len (E : Collab S M F D) (allocOk : Bool)
    (q : qdsync_cccf_s S M F D) (L : Nat) :
    Int × qdsync_cccf_s S M F D × List (List S) :=
  if L = 0 then (LIQUID_EICONFIG, q, [])
  else if q.buf_out_counter < L then
    let q1 := { q with buf_out_len := L }
    match reallocModel allocOk q1.buf_out L E.junk with
    | none => (LIQUID_EIMEM, q1, [])
    | some b => (LIQUID_OK, { q1 with buf_out := b }, [])
  else
    let r := drainLoop q.callback.isSome q.buf_out L 0 q.buf_out_counter
    let moved := (q.buf_out.drop r.1).take r.2.1 ++ q.buf_out.drop r.2.1
    let q1 := { q with buf_out := moved
                       buf_out_counter := r.2.1
                       buf_out_len := L }
    match reallocModel allocOk q1.buf_out L E.junk with
    | none => (LIQUID_EIMEM, q1, r.2.2)
    | some b => (LIQUID_OK, { q1 with buf_out := b }, r.2.2)

/-- Model of qdsync_cccf_step (lines 374-401): mix the sample down with
the mixer then advance the mixer phase, push the mixed sample into the
filter bank and execute branch pfb_index, increment mf_counter, and
compare it against k-1 exactly as the C does (mf_counter is int, k is
unsigned int, so the comparison is performed on unsigned values); when
the comparison holds, decrement mf_counter by k and append the filtered
sample to the output buffer.  The return value of buf_append is
discarded; step always returns LIQUID_OK. -/
def qdsync_cccf_step (E : Collab S M F D) (q : qdsync_cccf_s S M F D)
    (x : S) : Int × qdsync_cccf_s S M F D × List (List S) :=
  let v := E.nco_mix_down q.mixer x
  let q1 := { q with mixer := E.nco_step q.mixer }
  let q2 := { q1 with mf := E.firpfb_push q1.mf v }
  let y := E.firpfb_execute q2.mf q2.pfb_index
  let q3 := { q2 with mf_counter := q2.mf_counter + 1 }
  if toUInt32 ((q3.k : Int) - 1) ≤ toUInt32 q3.mf_counter then
    let q4 := { q3 with mf_counter := q3.mf_counter - (q3.k : Int) }
    let r := qdsync_cccf_buf_append E q4 y
    (LIQUID_OK, r.2)
  else (LIQUID_OK, q3, [])

/-- The DETECT to SYNC handoff block of qdsync_cccf_execute_detect
(lines 336-361): read the detector estimates, set
mf_counter = k - 2, compute index = (int)(tau*npfb) (truncation toward
zero), and when index < 0 increment mf_counter and add npfb to index;
store index into the unsigned field pfb_index; program the filter-bank
scale and the mixer frequency/phase; set state to SYNC (1). -/
def qdsync_cccf_handoff (E : Collab S M F D) (q : qdsync_cccf_s S M F D) :
    qdsync_cccf_s S M F D :=
  let tau_hat := E.det_get_tau q.detector
  let gamma_hat := E.det_get_gamma q.detector
  let dphi_hat := E.det_get_dphi q.detector
  let phi_hat := E.det_get_phi q.detector
  let mf_counter0 : Int := (q.k : Int) - 2
  let index0 : Int := ratTrunc (tau_hat * (q.npfb : ℚ))
  let mf_counter1 := if index0 < 0 then mf_counter0 + 1 else mf_counter0
  let index1 := if index0 < 0 then index0 + (q.npfb : Int) else index0
  { q with mf_counter := mf_counter1
           pfb_index := toUInt32 index1
           mf := E.firpfb_set_scale q.mf (1 / ((q.k : ℚ) * gamma_hat))
           mixer := E.nco_set_phase (E.nco_set_frequency q.mixer dphi_hat) phi_hat
           state := 1 }

mutual

/-- Model of qdsync_cccf_execute_detect (lines 327-368): push the sample
into the detector; on detection perform the handoff and run the
detector buffered window through qdsync_cccf_execute (whose return code
the C ignores).  The fuel argument bounds the recursion depth through
execute (the C recursion is bounded by the finiteness of the input);
with zero fuel the buffered window is not reprocessed. -/
def qdsync_cccf_execute_detect (E : Collab S M F D) :
    Nat → qdsync_cccf_s S M F D → S →
    qdsync_cccf_s S M F D × List (List S)
  | fuel, q, x =>
    match E.det_execute q.detector x with
    | (d2, none) => ({ q with detector := d2 }, [])
    | (d2, some v) =>
      let q1 := qdsync_cccf_handoff E { q with detector := d2 }
      match fuel with
      | 0 => (q1, [])
      | fuel2 + 1 =>
        let r := qdsync_cccf_execute E fuel2 q1 v
        (r.2.1, r.2.2)
termination_by fuel _ _ => (fuel, 0)
decreasing_by
  all_goals simp_wf
  all_goals exact Prod.Lex.left _ _ (by omega)

/-- Model of qdsync_cccf_execute (lines 262-282): dispatch each sample on
the current state (0 = DETECT, 1 = SYNC); any other state value returns
LIQUID_EINT immediately, leaving the remaining samples unprocessed.
Returns (rc, final state, all windows delivered to the callback). -/
def qdsync_cccf_execute (E : Collab S M F D) :
    Nat → qdsync_cccf_s S M F D → List S →
    Int × qdsync_cccf_s S M F D × List (List S)
  | _, q, [] => (LIQUID_OK, q, [])
  | fuel, q, x :: rest =>
    if q.state = 0 then
      let rd := qdsync_cccf_execute_detect E fuel q x
      let r := qdsync_cccf_execute E fuel rd.1 rest
      (r.1, r.2.1, rd.2 ++ r.2.2)
    else if q.state = 1 then
      let rs := qdsync_cccf_step E q x
      let r := qdsync_cccf_execute E fuel rs.2.1 rest
      (r.1, r.2.1, rs.2.2 ++ r.2.2)
    else (LIQUID_EINT, q, [])
termination_by fuel _ buf => (fuel, 2 * buf.length + 1)
decreasing_by
  all_goals simp_wf
  all_goals exact Prod.Lex.right _ (by omega)

end

/-- Model of qdsync_cccf_create_linear (lines 84-126): reject a
zero-length sequence (returning none, the NULL error object); otherwise
build the object as the C does (npfb = 256, a 64-cell malloc output
buffer whose cells are uninitialized) and apply qdsync_cccf_reset.  The
mf_counter and pfb_index fields are uninitialized malloc memory in C,
never read before the handoff assigns them; the model sets them to 0. -/
def qdsync_cccf_create_linear (E : Collab S M F D) (seq : List S)
    (ftype : Int) (k m : Nat) (beta : ℚ) (cb : Option (List S → Int)) :
    Option (qdsync_cccf_s S M F D) :=
  if seq.length = 0 then none
  else
    let q : qdsync_cccf_s S M F D :=
      { seq_len := seq.length
        ftype := ftype
        k := k
        m := m
        beta := beta
        callback := cb
        detector := E.det_create seq ftype k m beta
        state := 0
        symbol_counter := 0
        mixer := E.nco_create
        mf := E.firpfb_create ftype 256 k m beta
        npfb := 256
        mf_counter := 0
        pfb_index := 0
        buf_out_len := 64
        buf_out := List.replicate 64 E.junk
        buf_out_counter := 0 }
    some (qdsync_cccf_reset E q).2

/-- Model of qdsync_cccf_copy (lines 129-153): a deep copy; the scalar
fields are copied by value and each sub-object is copied through its
collaborator copy operation; the buffer contents are duplicated. -/
def qdsync_cccf_copy (E : Collab S M F D) (q : qdsync_cccf_s S M F D) :
    qdsync_cccf_s S M F D :=
  { q with detector := E.det_copy q.detector
           mixer := E.nco_copy q.mixer
           mf := E.firpfb_copy q.mf }

/-- Public operations on a synchronizer, for stating reachability
(claim C9): bulk execute, reset, deep copy, and the configuration
calls. -/
inductive qdsyncOp (S : Type) where
  | exec (fuel : Nat) (buf : List S)
  | reset
  | copy
  | set_buf_len (allocOk : Bool) (L : Nat)
  | set_callback (cb : Option (List S → Int))
  | set_threshold (t : ℚ)
  | set_range (r : ℚ)

/-- Apply one public operation to the synchronizer state. -/
def applyOp (E : Collab S M F D) (q : qdsync_cccf_s S M F D) :
    qdsyncOp S → qdsync_cccf_s S M F D
  | .exec fuel buf => (qdsync_cccf_execute E fuel q buf).2.1
  | .reset => (qdsync_cccf_reset E q).2
  | .copy => qdsync_cccf_copy E q
  | .set_buf_len ok L => (qdsync_cccf_set_buf_len E ok q L).2.1
  | .set_callback cb => { q with callback := cb }
  | .set_threshold t => { q with detector := E.det_set_threshold q.detector t }
  | .set_range r => { q with detector := E.det_set_range q.detector r }

/-- Apply a sequence of public operations from left to right. -/
def applyOps (E : Collab S M F D) (q : qdsync_cccf_s S M F D)
    (ops : List (qdsyncOp S)) : qdsync_cccf_s S M F D :=
  ops.foldl (applyOp E) q

/-- The state tag is one of the two declared enum values
(QDSYNC_STATE_DETECT = 0, QDSYNC_STATE_SYNC = 1). -/
def stateOK (q : qdsync_cccf_s S M F D) : Prop :=
  q.state = 0 ∨ q.state = 1

/-- Iterated buf_append keeping only the state (traces and return codes
discarded), used to express the filter-delay gating of claim C4. -/
def appendMany (E : Collab S M F D) (q : qdsync_cccf_s S M F D)
    (xs : List S) : qdsync_cccf_s S M F D :=
  xs.foldl (fun st x => (qdsync_cccf_buf_append E st x).2.1) q

end Model

/-- Concrete collaborator instantiation used for witnesses and
counterexamples: samples, mixer and filter-bank states are integers; the
detector state is a rational recording the tau estimate (and never
signalling a detection). -/
def collabC : Collab Int Int Int ℚ where
  det_create := fun _ _ _ _ _ => 0
  det_execute := fun d _ => (d, none)
  det_reset := fun _ => 0
  det_copy := fun d => d
  det_get_tau := fun d => d
  det_get_gamma := fun _ => 1
  det_get_dphi := fun _ => 0
  det_get_phi := fun _ => 0
  det_set_threshold := fun d _ => d
  det_set_range := fun d _ => d
  nco_create := 0
  nco_mix_down := fun _ x => x
  nco_step := fun mx => mx + 1
  nco_set_frequency := fun mx _ => mx
  nco_set_phase := fun mx _ => mx
  nco_copy := fun mx => mx
  firpfb_create := fun _ _ _ _ _ => 0
  firpfb_push := fun f _ => f
  firpfb_execute := fun f _ => f
  firpfb_set_scale := fun f _ => f
  firpfb_reset := fun _ => 0
  firpfb_copy := fun f => f
  junk := 0

/-- A concrete callback returning 1 (a nonzero return code) on every
window. -/
def cbOne : List Int → Int := fun _ => 1

/-- A concrete synchronizer state used by witnesses and counterexamples:
k = 2, m = 2, npfb = 256, SYNC state, an 8-cell buffer holding samples
1..8 with cursor 4, no callback installed. -/
def qBase : qdsync_cccf_s Int Int Int ℚ where
  seq_len := 4
  ftype := 0
  k := 2
  m := 2
  beta := 1 / 4
  callback := none
  detector := 0
  state := 1
  symbol_counter := 7
  mixer := 0
  mf := 0
  npfb := 256
  mf_counter := 0
  pfb_index := 0
  buf_out_len := 8
  buf_out := [1, 2, 3, 4, 5, 6, 7, 8]
  buf_out_counter := 4

/-- qBase with the nonzero-returning callback installed. -/
def qCb : qdsync_cccf_s Int Int Int ℚ := { qBase with callback := some cbOne }

/-- Handoff input for the C1 counterexample: tau = 9/2560, so that
tau * npfb = 9/10 (round gives 1, truncation gives 0). -/
def qC1 : qdsync_cccf_s Int Int Int ℚ := { qBase with detector := 9 / 2560 }

/-- Handoff input for the C1 witness: tau = -3/256, so that
tau * npfb = -3 and the negative-index wrap correction fires. -/
def qC1w : qdsync_cccf_s Int Int Int ℚ := { qBase with detector := -3 / 256 }

/-- State with the creation-default 64-cell buffer, used for the C6
allocation-failure evaluation. -/
def qC6 : qdsync_cccf_s Int Int Int ℚ :=
  { qBase with state := 0
               buf_out_len := 64
               buf_out := List.replicate 64 0
               buf_out_counter := 0 }

/-- State fresh after handoff (symbol_counter 0), used for the C4
witness. -/
def qC4w : qdsync_cccf_s Int Int Int ℚ := { qBase with symbol_counter := 0 }

/-- State one sample short of a full buffer and past the filter delay,
used for the C5 and C10 witnesses. -/
def qFull : qdsync_cccf_s Int Int Int ℚ :=
  { qBase with buf_out_counter := 7 }

/-- qFull with the nonzero-returning callback installed. -/
def qFullCb : qdsync_cccf_s Int Int Int ℚ :=
  { qFull with callback := some cbOne }

/-- The synchronizer produced by create on a 1-sample sequence, used by
the C9 witness. -/
def qInitC9 : qdsync_cccf_s Int Int Int ℚ :=
  (qdsync_cccf_create_linear collabC [5] 0 2 2 (1 / 4) none).getD qBase

/-- Claim C8: creation with sequence_length = 0 and
set_output_buffer_length with new_len = 0 are each rejected before any
state mutation: create returns no object, and set_buf_len returns the
configuration error LIQUID_EICONFIG with the object unmodified and no
callback invoked. -/
theorem C8_zero_rejected {S M F D : Type} (E : Collab S M F D)
    (ftype : Int) (k m : Nat) (beta : ℚ) (cb : Option (List S → Int))
    (allocOk : Bool) (q : qdsync_cccf_s S M F D) :
    qdsync_cccf_create_linear E [] ftype k m beta cb = none ∧
    qdsync_cccf_set_buf_len E allocOk q 0 = (LIQUID_EICONFIG, q, []) :=
  ⟨rfl, rfl⟩

/-- Claim C7: set_output_buffer_length with new_len strictly greater than
the current occupancy (and a successful reallocation) preserves the
buffered samples at positions [0, current_count) unchanged, sets the
capacity to new_len, leaves the cursor unchanged, and invokes no
callback. -/
theorem C7_grow_preserves {S M F D : Type} (E : Collab S M F D)
    (q : qdsync_cccf_s S M F D) (L : Nat)
    (hL : L ≠ 0) (hlt : q.buf_out_counter < L)
    (hcnt : q.buf_out_counter ≤ q.buf_out.length) :
    (qdsync_cccf_set_buf_len E true q L).1 = LIQUID_OK ∧
    (qdsync_cccf_set_buf_len E true q L).2.1.buf_out_len = L ∧
    (qdsync_cccf_set_buf_len E true q L).2.1.buf_out_counter
      = q.buf_out_counter ∧
    (qdsync_cccf_set_buf_len E true q L).2.1.buf_out.take q.buf_out_counter
      = q.buf_out.take q.buf_out_counter ∧
    (qdsync_cccf_set_buf_len E true q L).2.1.buf_out.length = L ∧
    (qdsync_cccf_set_buf_len E true q L).2.2 = [] := by
  have hres : qdsync_cccf_set_buf_len E true q L
      = (LIQUID_OK,
         { q with buf_out_len := L
                  buf_out := q.buf_out.take L
                    ++ List.replicate (L - q.buf_out.length) E.junk }, []) := by
    unfold qdsync_cccf_set_buf_len reallocModel
    rw [if_neg hL, if_pos hlt]
    simp
  rw [hres]
  refine ⟨rfl, rfl, rfl, ?_, ?_, rfl⟩
  · rw [List.take_append_of_le_length, List.take_take,
        Nat.min_eq_left (Nat.le_of_lt hlt)]
    rw [List.length_take]
    omega
  · rw [List.length_append, List.length_take, List.length_replicate]
    omega

/-- Claim C7 witness: growing the 8-cell qBase buffer (4 samples
buffered) to 10 cells preserves the 4 samples, sets capacity 10, leaves
the cursor at 4 and delivers nothing. -/
theorem C7_grow_preserves_witness :
    (qdsync_cccf_set_buf_len collabC true qBase 10).1 = LIQUID_OK ∧
    (qdsync_cccf_set_buf_len collabC true qBase 10).2.1.buf_out_len = 10 ∧
    (qdsync_cccf_set_buf_len collabC true qBase 10).2.1.buf_out_counter
      = qBase.buf_out_counter ∧
    (qdsync_cccf_set_buf_len collabC true qBase 10).2.1.buf_out.take
        qBase.buf_out_counter
      = qBase.buf_out.take qBase.buf_out_counter ∧
    (qdsync_cccf_set_buf_len collabC true qBase 10).2.1.buf_out.length = 10 ∧
    (qdsync_cccf_set_buf_len collabC true qBase 10).2.2 = [] :=
  C7_grow_preserves collabC qBase 10 (by decide) (by decide) (by decide)

/-- Claim C6 (code bug evaluation): with a failing reallocation on the
grow path from the 64-cell creation-default buffer to 128 cells, the
call reports LIQUID_EIMEM but the object records capacity 128 while the
stored allocation is still the 64-cell pre-resize one, so the recorded
capacity and the stored samples no longer consistently describe the
pre-resize buffer (the C code assigns buf_out_len before checking the
realloc result). -/
theorem C6_alloc_failure_inconsistent :
    (qdsync_cccf_set_buf_len collabC false qC6 128).1 = LIQUID_EIMEM ∧
    (qdsync_cccf_set_buf_len collabC false qC6 128).2.1.buf_out_len = 128 ∧
    (qdsync_cccf_set_buf_len collabC false qC6 128).2.1.buf_out
      = qC6.buf_out ∧
    qC6.buf_out.length = 64 :=
  ⟨rfl, rfl, rfl, by decide⟩

/-- Claim C1 counterexample: at a handoff with tau = 9/2560 and
npfb = 256 the product tau * npfb is 9/10, whose rounding is 1, yet the
code selects branch 0: the filterbank index is not round(tau * npfb). -/
theorem C1_counterexample :
    ((qdsync_cccf_handoff collabC qC1).pfb_index : Int)
      ≠ round (collabC.det_get_tau qC1.detector * (qC1.npfb : ℚ)) := by
  have hp : collabC.det_get_tau qC1.detector * (qC1.npfb : ℚ) = mkRat 9 10 := by
    show (9 / 2560 : ℚ) * ((256 : Nat) : ℚ) = mkRat 9 10
    rw [Rat.mkRat_eq_div]
    norm_num
  have h1 : (qdsync_cccf_handoff collabC qC1).pfb_index = 0 := by
    unfold qdsync_cccf_handoff
    simp only [hp]
    have htr : ratTrunc (mkRat 9 10) = 0 := by decide
    simp [htr, toUInt32]
  have h2 : round (collabC.det_get_tau qC1.detector * (qC1.npfb : ℚ)) = 1 := by
    rw [hp, Rat.mkRat_eq_div]
    norm_num [round_eq]
  rw [h1, h2]
  decide

/-- Claim C1 (amended): at every DETECT to SYNC handoff the filterbank
branch index is computed as the truncation toward zero of tau * npfb
(the C int cast, not rounding); when that truncated index is negative it
is corrected by adding npfb, and mf_counter is initialized to k - 2,
pre-advanced by exactly one (to k - 1) if and only if the negative-index
wrap correction fired; the state becomes SYNC. -/
theorem C1_handoff_trunc {S M F D : Type} (E : Collab S M F D)
    (q : qdsync_cccf_s S M F D)
    (hlo : 0 ≤ ratTrunc (E.det_get_tau q.detector * (q.npfb : ℚ))
             + (q.npfb : Int))
    (hhi : ratTrunc (E.det_get_tau q.detector * (q.npfb : ℚ)) < 2 ^ 32)
    (hn : q.npfb ≤ 2 ^ 32) :
    ((qdsync_cccf_handoff E q).pfb_index : Int)
      = (if ratTrunc (E.det_get_tau q.detector * (q.npfb : ℚ)) < 0
         then ratTrunc (E.det_get_tau q.detector * (q.npfb : ℚ)) + (q.npfb : Int)
         else ratTrunc (E.det_get_tau q.detector * (q.npfb : ℚ))) ∧
    (qdsync_cccf_handoff E q).mf_counter
      = (if ratTrunc (E.det_get_tau q.detector * (q.npfb : ℚ)) < 0
         then (q.k : Int) - 1
         else (q.k : Int) - 2) ∧
    (qdsync_cccf_handoff E q).state = 1 := by
  have hpfb : (qdsync_cccf_handoff E q).pfb_index
      = toUInt32 (if ratTrunc (E.det_get_tau q.detector * (q.npfb : ℚ)) < 0
                  then ratTrunc (E.det_get_tau q.detector * (q.npfb : ℚ))
                       + (q.npfb : Int)
                  else ratTrunc (E.det_get_tau q.detector * (q.npfb : ℚ))) := rfl
  have hmf : (qdsync_cccf_handoff E q).mf_counter
      = (if ratTrunc (E.det_get_tau q.detector * (q.npfb : ℚ)) < 0
         then ((q.k : Int) - 2) + 1
         else (q.k : Int) - 2) := rfl
  refine ⟨?_, ?_, rfl⟩
  · rw [hpfb]
    unfold toUInt32
    by_cases h : ratTrunc (E.det_get_tau q.detector * (q.npfb : ℚ)) < 0
    · rw [if_pos h]
      omega
    · rw [if_neg h]
      omega
  · rw [hmf]
    split
    · ring
    · rfl

/-- Claim C1 witness: at qC1w (tau = -3/256, npfb = 256) the truncated
index is -3, the wrap correction fires, the branch index becomes 253 and
mf_counter becomes k - 1 = 1. -/
theorem C1_handoff_trunc_witness :
    ((qdsync_cccf_handoff collabC qC1w).pfb_index : Int)
      = (if ratTrunc (collabC.det_get_tau qC1w.detector * (qC1w.npfb : ℚ)) < 0
         then ratTrunc (collabC.det_get_tau qC1w.detector * (qC1w.npfb : ℚ))
              + (qC1w.npfb : Int)
         else ratTrunc (collabC.det_get_tau qC1w.detector * (qC1w.npfb : ℚ))) ∧
    (qdsync_cccf_handoff collabC qC1w).mf_counter
      = (if ratTrunc (collabC.det_get_tau qC1w.detector * (qC1w.npfb : ℚ)) < 0
         then (qC1w.k : Int) - 1
         else (qC1w.k : Int) - 2) ∧
    (qdsync_cccf_handoff collabC qC1w).state = 1 := by
  have hp : collabC.det_get_tau qC1w.detector * (qC1w.npfb : ℚ)
      = mkRat (-3) 1 := by
    show (-3 / 256 : ℚ) * ((256 : Nat) : ℚ) = mkRat (-3) 1
    rw [Rat.mkRat_eq_div]
    norm_num
  exact C1_handoff_trunc collabC qC1w (by rw [hp]; decide)
    (by rw [hp]; decide) (by decide)

/-- Unrolling of the shrink loop: starting at read offset index with a
given counter, the loop advances the offset by (counter / L) * L windows
of L samples, leaves counter mod L samples pending, and (when a callback
is present) passes exactly those counter / L consecutive windows to it
in order. -/
theorem drainLoop_spec {S : Type} (hasCb : Bool) (buf : List S) (L : Nat)
    (hL : 0 < L) :
    ∀ counter index,
    drainLoop hasCb buf L index counter
      = (index + counter / L * L, counter % L,
         if hasCb then
           (List.range (counter / L)).map
             (fun i => (buf.drop (index + i * L)).take L)
         else []) := by
  intro counter
  induction counter using Nat.strong_induction_on with
  | _ counter IH =>
    intro index
    by_cases h : L ≤ counter
    · have hdiv : counter / L = (counter - L) / L + 1 := Nat.div_eq_sub_div hL h
      rw [drainLoop, dif_pos (⟨hL, h⟩ : 0 < L ∧ L ≤ counter),
          IH (counter - L) (by omega) (index + L)]
      simp only [Prod.mk.injEq]
      refine ⟨by rw [hdiv]; ring, (Nat.mod_eq_sub_mod h).symm, ?_⟩
      cases hasCb with
      | false => simp
      | true =>
        simp only [if_true, reduceIte]
        rw [hdiv, List.range_succ_eq_map, List.map_cons, List.map_map]
        simp only [List.cons.injEq]
        refine ⟨by simp, ?_⟩
        refine List.map_congr_left ?_
        intro i _
        rw [Function.comp_apply]
        congr 2
        rw [Nat.succ_mul]
        omega
    · rw [drainLoop, dif_neg (by omega : ¬ (0 < L ∧ L ≤ counter))]
      have hdiv : counter / L = 0 := Nat.div_eq_of_lt (by omega)
      have hmod : counter % L = counter := Nat.mod_eq_of_lt (by omega)
      simp [hdiv, hmod]

/-- Concatenating n consecutive L-sized windows of a list recovers its
prefix of length n * L. -/
theorem windowsJoin {S : Type} (buf : List S) (L : Nat) :
    ∀ n, n * L ≤ buf.length →
    ((List.range n).map (fun i => (buf.drop (i * L)).take L)).flatten
      = buf.take (n * L) := by
  intro n
  induction n with
  | zero => simp
  | succ n IH =>
    intro h
    rw [List.range_succ, List.map_append, List.flatten_append]
    rw [IH (le_trans (Nat.mul_le_mul_right L (Nat.le_succ n)) h)]
    simp only [List.map_cons, List.map_nil, List.flatten_cons,
      List.flatten_nil, List.append_nil]
    rw [← List.take_add]
    congr 1
    ring

/-- Claim C5 counterexample: shrinking the 8-cell buffer of qCb (holding
4 unconsumed samples, nonzero-returning callback installed) to length 2
invokes the callback twice, on windows [1,2] and [3,4]; the callback
returns 1 (nonzero) on every window, yet no reset occurs: the final
state is still SYNC (1) with symbol_counter still 7. -/
theorem C5_counterexample :
    (qdsync_cccf_set_buf_len collabC true qCb 2).2.2 = [[1, 2], [3, 4]] ∧
    (∀ w ∈ (qdsync_cccf_set_buf_len collabC true qCb 2).2.2, cbOne w ≠ 0) ∧
    (qdsync_cccf_set_buf_len collabC true qCb 2).2.1.state = 1 ∧
    (qdsync_cccf_set_buf_len collabC true qCb 2).2.1.symbol_counter = 7 := by
  have hd : drainLoop true [(1 : Int), 2, 3, 4, 5, 6, 7, 8] 2 0 4
      = (4, 0, [[1, 2], [3, 4]]) := by
    simp [drainLoop]
  refine ⟨?_, ?_, ?_, ?_⟩ <;>
    simp [qdsync_cccf_set_buf_len, qCb, qBase, cbOne, collabC, hd,
      reallocModel]

/-- Claim C5 (amended): a nonzero return from the callback invoked on the
buffer-full path of append triggers an immediate full synchronizer
reset (state forced to DETECT, detector re-armed, symbol counter and
buffer cursor zeroed, matched filter reset), whereas the return codes of
callback invocations made during a buffer shrink are ignored:
set_buf_len never changes the state tag or the symbol counter. -/
theorem C5_callback_reset {S M F D : Type} (E : Collab S M F D)
    (q : qdsync_cccf_s S M F D) (x : S) (cb : List S → Int)
    (hcb : q.callback = some cb)
    (hdelay : 2 * q.m < q.symbol_counter + 1)
    (hfill : q.buf_out_counter + 1 = q.buf_out_len)
    (hrc : cb ((q.buf_out.set q.buf_out_counter x).take q.buf_out_len) ≠ 0) :
    ((qdsync_cccf_buf_append E q x).2.1.state = 0 ∧
     (qdsync_cccf_buf_append E q x).2.1.symbol_counter = 0 ∧
     (qdsync_cccf_buf_append E q x).2.1.buf_out_counter = 0 ∧
     (qdsync_cccf_buf_append E q x).2.1.detector = E.det_reset q.detector ∧
     (qdsync_cccf_buf_append E q x).2.1.mf = E.firpfb_reset q.mf ∧
     (qdsync_cccf_buf_append E q x).2.2
       = [(q.buf_out.set q.buf_out_counter x).take q.buf_out_len]) ∧
    (∀ (allocOk : Bool) (q2 : qdsync_cccf_s S M F D) (L : Nat),
      (qdsync_cccf_set_buf_len E allocOk q2 L).2.1.state = q2.state ∧
      (qdsync_cccf_set_buf_len E allocOk q2 L).2.1.symbol_counter
        = q2.symbol_counter) := by
  constructor
  · have hres : qdsync_cccf_buf_append E q x
        = (LIQUID_OK,
           (qdsync_cccf_reset E
             { q with symbol_counter := q.symbol_counter + 1
                      buf_out := q.buf_out.set q.buf_out_counter x
                      buf_out_counter := 0 }).2,
           [(q.buf_out.set q.buf_out_counter x).take q.buf_out_len]) := by
      simp only [qdsync_cccf_buf_append]
      rw [if_neg (by omega : ¬ (q.symbol_counter + 1 ≤ 2 * q.m))]
      simp only [hcb]
      rw [if_pos hfill, if_pos hrc]
      rfl
    rw [hres]
    exact ⟨rfl, rfl, rfl, rfl, rfl, rfl⟩
  · intro allocOk q2 L
    unfold qdsync_cccf_set_buf_len
    split
    · exact ⟨rfl, rfl⟩
    · cases allocOk <;> split <;> exact ⟨rfl, rfl⟩

/-- Claim C5 witness: appending one sample to qFullCb (7 of 8 cells
filled, past the filter delay, nonzero-returning callback) fills the
buffer and produces a fully reset synchronizer. -/
theorem C5_callback_reset_witness :
    (qdsync_cccf_buf_append collabC qFullCb 9).2.1.state = 0 ∧
    (qdsync_cccf_buf_append collabC qFullCb 9).2.1.symbol_counter = 0 ∧
    (qdsync_cccf_buf_append collabC qFullCb 9).2.2
      = [(qFullCb.buf_out.set qFullCb.buf_out_counter 9).take
          qFullCb.buf_out_len] := by
  have h := C5_callback_reset collabC qFullCb 9 cbOne rfl (by decide)
    (by decide) (by decide)
  exact ⟨h.1.1, h.1.2.1, h.1.2.2.2.2.2⟩

/-- Claim C10: with no callback installed (NULL pointer), the operations
complete without error and no window is ever delivered: when the output
buffer fills during append the cursor is reset to 0 and the window is
silently discarded with no delivery and no reset, and a shrink advances
the read offset over full-sized windows whose samples are dropped
without delivery, leaving the residual at the front. -/
theorem C10_no_callback {S M F D : Type} (E : Collab S M F D)
    (q : qdsync_cccf_s S M F D) (x : S)
    (hcb : q.callback = none)
    (hdelay : 2 * q.m < q.symbol_counter + 1)
    (hfill : q.buf_out_counter + 1 = q.buf_out_len)
    (q2 : qdsync_cccf_s S M F D) (L : Nat)
    (hcb2 : q2.callback = none)
    (hL : 1 ≤ L) (hLc : L ≤ q2.buf_out_counter) :
    qdsync_cccf_buf_append E q x
      = (LIQUID_OK,
         { q with symbol_counter := q.symbol_counter + 1
                  buf_out := q.buf_out.set q.buf_out_counter x
                  buf_out_counter := 0 }, []) ∧
    (qdsync_cccf_set_buf_len E true q2 L).1 = LIQUID_OK ∧
    (qdsync_cccf_set_buf_len E true q2 L).2.2 = [] ∧
    (qdsync_cccf_set_buf_len E true q2 L).2.1.buf_out_counter
      = q2.buf_out_counter % L ∧
    (qdsync_cccf_set_buf_len E true q2 L).2.1.buf_out_len = L := by
  constructor
  · simp only [qdsync_cccf_buf_append]
    rw [if_neg (by omega : ¬ (q.symbol_counter + 1 ≤ 2 * q.m))]
    simp only [hcb]
    rw [if_pos hfill]
  · have hd := drainLoop_spec q2.callback.isSome q2.buf_out L (by omega)
      q2.buf_out_counter 0
    rw [hcb2] at hd
    simp only [Option.isSome_none, if_false, Bool.false_eq_true] at hd
    unfold qdsync_cccf_set_buf_len
    rw [if_neg (by omega : ¬ L = 0),
        if_neg (by omega : ¬ q2.buf_out_counter < L)]
    rw [hcb2]
    simp only [Option.isSome_none]
    rw [hd]
    simp [reallocModel]

/-- Claim C10 witness: with no callback, filling the last cell of qFull
discards the window with no delivery, and shrinking qBase (4 samples,
no callback) to 3 cells drops one full window without delivery, leaving
1 residual sample. -/
theorem C10_no_callback_witness :
    qdsync_cccf_buf_append collabC qFull 9
      = (LIQUID_OK,
         { qFull with symbol_counter := qFull.symbol_counter + 1
                      buf_out := qFull.buf_out.set qFull.buf_out_counter 9
                      buf_out_counter := 0 }, []) ∧
    (qdsync_cccf_set_buf_len collabC true qBase 3).1 = LIQUID_OK ∧
    (qdsync_cccf_set_buf_len collabC true qBase 3).2.2 = [] ∧
    (qdsync_cccf_set_buf_len collabC true qBase 3).2.1.buf_out_counter
      = qBase.buf_out_counter % 3 ∧
    (qdsync_cccf_set_buf_len collabC true qBase 3).2.1.buf_out_len = 3 :=
  C10_no_callback collabC qFull 9 rfl (by decide) (by decide) qBase 3 rfl
    (by decide) (by decide)

/-- Claim C2: a SYNC step mixes the sample down with the current mixer
state and advances the mixer phase by one step, pushes the mixed sample
into the filter bank and executes branch pfb_index to get one filtered
sample, then increments mf_counter; the filtered sample is appended to
the output pipeline (buf_append) if and only if the incremented counter
is at least k - 1, in which case the counter is additionally decremented
by k; for any other counter value no output is produced.  The range
hypotheses confine mf_counter and k to the values reachable in the C
program, where the comparison is performed after conversion to unsigned
int. -/
theorem C2_step_decimates {S M F D : Type} (E : Collab S M F D)
    (q : qdsync_cccf_s S M F D) (x : S)
    (hmf : -1 ≤ q.mf_counter) (hmfhi : q.mf_counter + 1 < 2 ^ 32)
    (hk : 1 ≤ q.k) (hkhi : q.k ≤ 2 ^ 32) :
    qdsync_cccf_step E q x
      = (let v := E.nco_mix_down q.mixer x
         let q2 := { q with mixer := E.nco_step q.mixer
                            mf := E.firpfb_push q.mf v }
         let y := E.firpfb_execute q2.mf q2.pfb_index
         if (q.k : Int) - 1 ≤ q.mf_counter + 1 then
           (LIQUID_OK,
            (qdsync_cccf_buf_append E
              { q2 with mf_counter := q.mf_counter + 1 - (q.k : Int) } y).2)
         else
           (LIQUID_OK, { q2 with mf_counter := q.mf_counter + 1 },
            ([] : List (List S)))) := by
  simp only [qdsync_cccf_step]
  have hcond : (toUInt32 ((q.k : Int) - 1) ≤ toUInt32 (q.mf_counter + 1))
      ↔ ((q.k : Int) - 1 ≤ q.mf_counter + 1) := by
    unfold toUInt32
    constructor <;> intro h <;> omega
  by_cases h : (q.k : Int) - 1 ≤ q.mf_counter + 1
  · rw [if_pos (hcond.mpr h), if_pos h]
  · rw [if_neg (fun hc => h (hcond.mp hc)), if_neg h]

/-- Claim C2 witness: a concrete SYNC step on qBase (k = 2,
mf_counter = 0), where the incremented counter 1 reaches k - 1 = 1 and
an output is due. -/
theorem C2_step_decimates_witness :
    qdsync_cccf_step collabC qBase 5
      = (let v := collabC.nco_mix_down qBase.mixer 5
         let q2 := { qBase with mixer := collabC.nco_step qBase.mixer
                                mf := collabC.firpfb_push qBase.mf v }
         let y := collabC.firpfb_execute q2.mf q2.pfb_index
         if (qBase.k : Int) - 1 ≤ qBase.mf_counter + 1 then
           (LIQUID_OK,
            (qdsync_cccf_buf_append collabC
              { q2 with mf_counter := qBase.mf_counter + 1 - (qBase.k : Int) }
              y).2)
         else
           (LIQUID_OK, { q2 with mf_counter := qBase.mf_counter + 1 },
            ([] : List (List Int)))) :=
  C2_step_decimates collabC qBase 5 (by decide) (by decide) (by decide)
    (by decide)

/-- While the incremented symbol counter stays at most 2*m, iterated
buf_append only bumps the symbol counter and touches nothing else. -/
theorem appendMany_delay {S M F D : Type} (E : Collab S M F D) :
    ∀ (xs : List S) (q : qdsync_cccf_s S M F D),
    q.symbol_counter + xs.length ≤ 2 * q.m →
    appendMany E q xs
      = { q with symbol_counter := q.symbol_counter + xs.length } := by
  intro xs
  induction xs with
  | nil =>
    intro q h
    simp [appendMany]
  | cons x xs IH =>
    intro q h
    simp only [List.length_cons] at h
    have hstep : (qdsync_cccf_buf_append E q x).2.1
        = { q with symbol_counter := q.symbol_counter + 1 } := by
      unfold qdsync_cccf_buf_append
      rw [if_pos (by omega : q.symbol_counter + 1 ≤ 2 * q.m)]
    have hfold : appendMany E q (x :: xs)
        = appendMany E ((qdsync_cccf_buf_append E q x).2.1) xs := rfl
    rw [hfold, hstep,
        IH { q with symbol_counter := q.symbol_counter + 1 } (by simpa using by omega)]
    have harith : q.symbol_counter + 1 + xs.length
        = q.symbol_counter + (xs.length + 1) := by omega
    simp [harith]

/-- Claim C4: starting from a just-handed-off state (symbol_counter 0),
every append among the first 2*m increments symbol_counter and returns
without touching the buffer or its cursor, and the (2*m+1)-th appended
sample is the first one written, at the cursor. -/
theorem C4_filter_delay {S M F D : Type} (E : Collab S M F D)
    (q : qdsync_cccf_s S M F D) (xs : List S) (y : S)
    (h0 : q.symbol_counter = 0) (hxs : xs.length = 2 * q.m) :
    (∀ j, j ≤ 2 * q.m →
      (appendMany E q (xs.take j)).buf_out = q.buf_out ∧
      (appendMany E q (xs.take j)).buf_out_counter = q.buf_out_counter) ∧
    (qdsync_cccf_buf_append E (appendMany E q xs) y).2.1.buf_out
      = q.buf_out.set q.buf_out_counter y := by
  constructor
  · intro j hj
    have hlen : (xs.take j).length = j := by
      rw [List.length_take]
      omega
    rw [appendMany_delay E (xs.take j) q (by omega)]
    exact ⟨rfl, rfl⟩
  · have happ : appendMany E q xs = { q with symbol_counter := 2 * q.m } := by
      rw [appendMany_delay E xs q (by omega)]
      rw [h0, hxs]
      simp
    rw [happ]
    unfold qdsync_cccf_buf_append
    rw [if_neg (by omega : ¬ (2 * q.m + 1 ≤ 2 * q.m))]
    dsimp only
    split
    · split
      · split
        · rfl
        · rfl
      · rfl
    · rfl

/-- Claim C4 witness: with m = 2 the first 4 appended samples after
handoff leave the buffer untouched and the 5th is written at the
cursor. -/
theorem C4_filter_delay_witness :
    (∀ j, j ≤ 2 * qC4w.m →
      (appendMany collabC qC4w ([1, 2, 3, 4].take j)).buf_out
        = qC4w.buf_out ∧
      (appendMany collabC qC4w ([1, 2, 3, 4].take j)).buf_out_counter
        = qC4w.buf_out_counter) ∧
    (qdsync_cccf_buf_append collabC
        (appendMany collabC qC4w [1, 2, 3, 4]) 9).2.1.buf_out
      = qC4w.buf_out.set qC4w.buf_out_counter 9 :=
  C4_filter_delay collabC qC4w [1, 2, 3, 4] 9 (by decide) (by decide)

/-- Claim C3: shrinking the output buffer to length L ≥ 1 while it holds
c ≥ L samples invokes the callback exactly c / L times, each time with
exactly L consecutive samples in original arrival order (never a partial
window: the delivered windows concatenate to the prefix of length
(c/L)*L); afterwards the buffer holds exactly c mod L residual samples
equal to the original tail, compacted to the front, with cursor c mod L
and capacity L. -/
theorem C3_shrink_flush {S M F D : Type} (E : Collab S M F D)
    (q : qdsync_cccf_s S M F D) (L : Nat) (cb : List S → Int)
    (hcb : q.callback = some cb)
    (hL : 1 ≤ L) (hLc : L ≤ q.buf_out_counter)
    (hlen : q.buf_out.length = q.buf_out_len)
    (hcnt : q.buf_out_counter ≤ q.buf_out_len) :
    (qdsync_cccf_set_buf_len E true q L).1 = LIQUID_OK ∧
    (qdsync_cccf_set_buf_len E true q L).2.2
      = (List.range (q.buf_out_counter / L)).map
          (fun i => (q.buf_out.drop (i * L)).take L) ∧
    (qdsync_cccf_set_buf_len E true q L).2.2.length
      = q.buf_out_counter / L ∧
    (∀ w ∈ (qdsync_cccf_set_buf_len E true q L).2.2, w.length = L) ∧
    (qdsync_cccf_set_buf_len E true q L).2.2.flatten
      = q.buf_out.take (q.buf_out_counter / L * L) ∧
    (qdsync_cccf_set_buf_len E true q L).2.1.buf_out_counter
      = q.buf_out_counter % L ∧
    (qdsync_cccf_set_buf_len E true q L).2.1.buf_out_len = L ∧
    (qdsync_cccf_set_buf_len E true q L).2.1.buf_out.length = L ∧
    (qdsync_cccf_set_buf_len E true q L).2.1.buf_out.take
        (q.buf_out_counter % L)
      = (q.buf_out.take q.buf_out_counter).drop
          (q.buf_out_counter / L * L) := by
  have hL0 : 0 < L := hL
  have hdm : q.buf_out_counter / L * L + q.buf_out_counter % L
      = q.buf_out_counter := by
    have h0 := Nat.div_add_mod q.buf_out_counter L
    rw [Nat.mul_comm] at h0
    exact h0
  have hmodlt : q.buf_out_counter % L < L := Nat.mod_lt _ hL0
  have hclen : q.buf_out_counter ≤ q.buf_out.length := by
    rw [hlen]
    exact hcnt
  have hPc : q.buf_out_counter / L * L ≤ q.buf_out_counter :=
    Nat.div_mul_le_self _ _
  have hPlen : q.buf_out_counter / L * L ≤ q.buf_out.length :=
    le_trans hPc hclen
  have hble : q.buf_out_counter % L
      ≤ q.buf_out.length - q.buf_out_counter / L * L :=
    Nat.le_sub_of_add_le (by rw [Nat.add_comm, hdm]; exact hclen)
  have hLlen : L ≤ q.buf_out.length := le_trans hLc hclen
  have hsub : q.buf_out_counter - q.buf_out_counter / L * L
      = q.buf_out_counter % L :=
    (Nat.sub_eq_iff_eq_add hPc).mpr (by rw [Nat.add_comm, hdm])
  have hmovedlen :
      ((q.buf_out.drop (q.buf_out_counter / L * L)).take
          (q.buf_out_counter % L)
        ++ q.buf_out.drop (q.buf_out_counter % L)).length
      = q.buf_out.length := by
    rw [List.length_append, List.length_take, List.length_drop,
        List.length_drop, Nat.min_eq_left hble]
    exact Nat.add_sub_cancel' (le_trans (Nat.mod_le _ _) hclen)
  have hres : qdsync_cccf_set_buf_len E true q L
      = (LIQUID_OK,
         { q with
             buf_out :=
               ((q.buf_out.drop (q.buf_out_counter / L * L)).take
                   (q.buf_out_counter % L)
                 ++ q.buf_out.drop (q.buf_out_counter % L)).take L
             buf_out_counter := q.buf_out_counter % L
             buf_out_len := L },
         (List.range (q.buf_out_counter / L)).map
           (fun i => (q.buf_out.drop (i * L)).take L)) := by
    unfold qdsync_cccf_set_buf_len reallocModel
    rw [if_neg (by omega : ¬ L = 0),
        if_neg (by omega : ¬ q.buf_out_counter < L)]
    rw [hcb]
    dsimp only [Option.isSome]
    rw [drainLoop_spec true q.buf_out L hL0 q.buf_out_counter 0]
    simp only [Nat.zero_add, if_true, reduceIte]
    rw [hmovedlen, Nat.sub_eq_zero_of_le hLlen, List.replicate_zero,
        List.append_nil]
  refine ⟨by rw [hres], by rw [hres], ?_, ?_, ?_, by rw [hres],
    by rw [hres], ?_, ?_⟩
  · rw [hres]
    simp
  · rw [hres]
    intro w hw
    simp only [List.mem_map, List.mem_range] at hw
    obtain ⟨i, hi, rfl⟩ := hw
    rw [List.length_take, List.length_drop]
    refine Nat.min_eq_left (Nat.le_sub_of_add_le ?_)
    have h1 : (i + 1) * L ≤ q.buf_out_counter / L * L :=
      Nat.mul_le_mul_right L (Nat.succ_le_of_lt hi)
    rw [Nat.add_comm, ← Nat.succ_mul]
    exact le_trans h1 hPlen
  · rw [hres]
    exact windowsJoin q.buf_out L _ hPlen
  · rw [hres]
    dsimp only
    rw [List.length_take, hmovedlen]
    exact Nat.min_eq_left hLlen
  · rw [hres]
    dsimp only
    rw [List.take_take, Nat.min_eq_left (le_of_lt hmodlt)]
    rw [List.take_append_of_le_length
      (by rw [List.length_take, List.length_drop, Nat.min_eq_left hble])]
    rw [List.take_take, Nat.min_self]
    rw [List.drop_take, hsub]

/-- Claim C3 witness: shrinking the 8-cell buffer of qCb holding 4
samples to length 3 delivers one full window and leaves the 1-sample
residual tail at the front with cursor 1 and capacity 3. -/
theorem C3_shrink_flush_witness :
    (qdsync_cccf_set_buf_len collabC true qCb 3).1 = LIQUID_OK ∧
    (qdsync_cccf_set_buf_len collabC true qCb 3).2.2
      = (List.range (qCb.buf_out_counter / 3)).map
          (fun i => (qCb.buf_out.drop (i * 3)).take 3) ∧
    (qdsync_cccf_set_buf_len collabC true qCb 3).2.2.length
      = qCb.buf_out_counter / 3 ∧
    (∀ w ∈ (qdsync_cccf_set_buf_len collabC true qCb 3).2.2,
      w.length = 3) ∧
    (qdsync_cccf_set_buf_len collabC true qCb 3).2.2.flatten
      = qCb.buf_out.take (qCb.buf_out_counter / 3 * 3) ∧
    (qdsync_cccf_set_buf_len collabC true qCb 3).2.1.buf_out_counter
      = qCb.buf_out_counter % 3 ∧
    (qdsync_cccf_set_buf_len collabC true qCb 3).2.1.buf_out_len = 3 ∧
    (qdsync_cccf_set_buf_len collabC true qCb 3).2.1.buf_out.length = 3 ∧
    (qdsync_cccf_set_buf_len collabC true qCb 3).2.1.buf_out.take
        (qCb.buf_out_counter % 3)
      = (qCb.buf_out.take qCb.buf_out_counter).drop
          (qCb.buf_out_counter / 3 * 3) :=
  C3_shrink_flush collabC qCb 3 cbOne rfl (by decide) (by decide)
    (by decide) (by decide)

/-- buf_append leaves the state tag unchanged, except that a
callback-triggered reset forces it to 0. -/
theorem buf_append_state {S M F D : Type} (E : Collab S M F D)
    (q : qdsync_cccf_s S M F D) (x : S) :
    (qdsync_cccf_buf_append E q x).2.1.state = q.state ∨
    (qdsync_cccf_buf_append E q x).2.1.state = 0 := by
  unfold qdsync_cccf_buf_append
  dsimp only
  split
  · left
    rfl
  · split
    · split
      · split
        · right
          rfl
        · left
          rfl
      · left
        rfl
    · left
      rfl

/-- A SYNC step leaves the state tag unchanged unless a
callback-triggered reset inside buf_append forces it to 0. -/
theorem step_state {S M F D : Type} (E : Collab S M F D)
    (q : qdsync_cccf_s S M F D) (x : S) :
    (qdsync_cccf_step E q x).2.1.state = q.state ∨
    (qdsync_cccf_step E q x).2.1.state = 0 := by
  unfold qdsync_cccf_step
  dsimp only
  split
  · exact buf_append_state E _ _
  · left
    rfl

/-- set_buf_len never changes the state tag. -/
theorem set_buf_len_state {S M F D : Type} (E : Collab S M F D)
    (allocOk : Bool) (q : qdsync_cccf_s S M F D) (L : Nat) :
    (qdsync_cccf_set_buf_len E allocOk q L).2.1.state = q.state := by
  unfold qdsync_cccf_set_buf_len
  split
  · rfl
  · cases allocOk <;> split <;> rfl

/-- The state tag stays in {0, 1} through the detection stage and through
execute, and execute always returns LIQUID_OK from such a state: the
unknown-state branch is unreachable. -/
theorem execute_stateOK {S M F D : Type} (E : Collab S M F D) :
    ∀ fuel : Nat,
    (∀ (q : qdsync_cccf_s S M F D) (x : S), stateOK q →
      stateOK (qdsync_cccf_execute_detect E fuel q x).1) ∧
    (∀ (q : qdsync_cccf_s S M F D) (buf : List S), stateOK q →
      (qdsync_cccf_execute E fuel q buf).1 = LIQUID_OK ∧
      stateOK (qdsync_cccf_execute E fuel q buf).2.1) := by
  intro fuel
  induction fuel using Nat.strong_induction_on with
  | _ fuel IH =>
    have hdet : ∀ (q : qdsync_cccf_s S M F D) (x : S), stateOK q →
        stateOK (qdsync_cccf_execute_detect E fuel q x).1 := by
      intro q x hq
      rw [qdsync_cccf_execute_detect]
      rcases hE : E.det_execute q.detector x with ⟨d2, res⟩
      cases res with
      | none => exact hq
      | some v =>
        cases fuel with
        | zero => exact Or.inr rfl
        | succ fuel2 =>
          have h1 : stateOK
              (qdsync_cccf_handoff E { q with detector := d2 }) :=
            Or.inr rfl
          exact ((IH fuel2 (Nat.lt_succ_self _)).2 _ v h1).2
    refine ⟨hdet, ?_⟩
    intro q buf
    induction buf generalizing q with
    | nil =>
      intro hq
      rw [qdsync_cccf_execute]
      exact ⟨rfl, hq⟩
    | cons x rest IHb =>
      intro hq
      rw [qdsync_cccf_execute]
      by_cases h0 : q.state = 0
      · rw [if_pos h0]
        dsimp only
        exact IHb _ (hdet q x hq)
      · rcases hq with h | h1
        · exact absurd h h0
        · rw [if_neg h0, if_pos h1]
          dsimp only
          refine IHb _ ?_
          rcases step_state E q x with h | h
          · exact Or.inr (by rw [h, h1])
          · exact Or.inl h
    
/-- Every public operation preserves membership of the state tag in
{0, 1}. -/
theorem applyOp_stateOK {S M F D : Type} (E : Collab S M F D)
    (q : qdsync_cccf_s S M F D) (op : qdsyncOp S) (h : stateOK q) :
    stateOK (applyOp E q op) := by
  cases op with
  | exec fuel buf => exact ((execute_stateOK E fuel).2 q buf h).2
  | reset => exact Or.inl rfl
  | copy => exact h
  | set_buf_len ok L =>
    have hs := set_buf_len_state E ok q L
    unfold applyOp stateOK
    rw [hs]
    exact h
  | set_callback cb => exact h
  | set_threshold t => exact h
  | set_range r => exact h

/-- Any sequence of public operations preserves membership of the state
tag in {0, 1}. -/
theorem applyOps_stateOK {S M F D : Type} (E : Collab S M F D)
    (ops : List (qdsyncOp S)) :
    ∀ q : qdsync_cccf_s S M F D, stateOK q →
    stateOK (applyOps E q ops) := by
  induction ops with
  | nil => exact fun q h => h
  | cons op rest IH => exact fun q h => IH _ (applyOp_stateOK E q op h)

/-- Claim C9: every synchronizer produced by create keeps its state field
in {DETECT (0), SYNC (1)} under every sequence of public operations
(execute, reset, copy, configuration calls), and consequently the
unknown-state error branch inside execute is unreachable: execute
returns LIQUID_OK from every reachable state. -/
theorem C9_state_invariant {S M F D : Type} (E : Collab S M F D)
    (seq : List S) (ftype : Int) (k m : Nat) (beta : ℚ)
    (cb : Option (List S → Int)) (q0 : qdsync_cccf_s S M F D)
    (hcreate : qdsync_cccf_create_linear E seq ftype k m beta cb = some q0)
    (ops : List (qdsyncOp S)) (fuel : Nat) (buf : List S) :
    stateOK (applyOps E q0 ops) ∧
    (qdsync_cccf_execute E fuel (applyOps E q0 ops) buf).1
      = LIQUID_OK := by
  have h0 : stateOK q0 := by
    unfold qdsync_cccf_create_linear at hcreate
    by_cases hs : seq.length = 0
    · rw [if_pos hs] at hcreate
      exact absurd hcreate (by simp)
    · rw [if_neg hs] at hcreate
      obtain rfl := Option.some.inj hcreate
      exact Or.inl rfl
  have hinv := applyOps_stateOK E ops q0 h0
  exact ⟨hinv, ((execute_stateOK E fuel).2 _ buf hinv).1⟩

/-- Claim C9 witness: the freshly created synchronizer qInitC9 satisfies
the invariant and execute returns LIQUID_OK on it. -/
theorem C9_state_invariant_witness :
    stateOK (applyOps collabC qInitC9 []) ∧
    (qdsync_cccf_execute collabC 0 (applyOps collabC qInitC9 []) []).1
      = LIQUID_OK :=
  C9_state_invariant collabC [5] 0 2 2 (1 / 4) none qInitC9 rfl [] 0 []
